import Mathlib

/-!
Verification of the Small-Fish-Classification-Website repository.

The embedding below translates the three Python source files into Lean:

* `src/Backend/main.py` — `CachedChatHistory` (per-session chat history with a
  20-message cap, persisted to a per-session JSON file) and `get_response`.
* `src/Backend/image_classification.py` — `classify_image`, the deterministic
  filename-based fallback classifier `_deterministic_fallback`, and the fixed
  label list `LABELS`.
* `src/main.py` — the Flask route handlers `serve_html` and `get_history`.

External effects are made explicit: the filesystem is a parameter, Python's
`random.seed(basename); random.random()` composite is a parameter
`seeded_random : String → ℚ` (the `random` module is deterministic given the
seed, so the draw is a pure function of the seed string with values in
`[0, 1)`), and the outcome of `_predict_with_model` (which calls into
TensorFlow) is a parameter of type `Except`.  Python's `round(x, 3)` is
modelled as exact half-to-even rounding on rationals.
-/

namespace FishSite

/-- A chat history entry as built by `add_to_history`:
`{"role": ..., "content": ..., "timestamp": datetime.now().isoformat()}`. -/
structure Message where
  role : String
  content : String
  timestamp : String
  deriving DecidableEq, Repr

/-- Python's `l[-20:]` generalised: the last `n` elements of a list. -/
def lastN (n : Nat) (l : List Message) : List Message :=
  l.drop (l.length - n)

/-- Embeds the list update in `CachedChatHistory.add_to_history`
(`src/Backend/main.py` lines 34–44): append the new message, then
`if len(self.conversation_history) > 20: self.conversation_history =
self.conversation_history[-20:]`. -/
def add_to_history (history : List Message) (m : Message) : List Message :=
  if 20 < (history ++ [m]).length then lastN 20 (history ++ [m])
  else history ++ [m]

/-- The observable state of one `CachedChatHistory` object:
its in-memory `conversation_history` and the message list currently stored
in its backing file `cache_file`. -/
structure SessionState where
  conversation_history : List Message
  cache_file : List Message
  deriving DecidableEq, Repr

/-- Embeds `CachedChatHistory._save_history`: the full in-memory message list
overwrites the backing file (the file also records the session id and a
`last_updated` stamp; only the message list is observable to the claims). -/
def save_history (st : SessionState) : SessionState :=
  { st with cache_file := st.conversation_history }

/-- `CachedChatHistory.add_to_history` at the session level: mutate the
in-memory list, then call `_save_history`. -/
def add_message (st : SessionState) (m : Message) : SessionState :=
  save_history { st with conversation_history := add_to_history st.conversation_history m }

/-- Embeds `CachedChatHistory.get_response` (`src/Backend/main.py` lines
46–68).  `api` is the outcome of
`self.client.chat.completions.create(...).choices[0].message.content`:
`Except.ok reply` if the remote call returns, `Except.error e` with `e` the
exception text `str(e)` if anything in the `try` block raises.  `ts` and
`ts2` are the two `datetime.now().isoformat()` stamps.  Returns the updated
session state and the returned string. -/
def get_response (api : Except String String) (st : SessionState)
    (user_message : String) (ts ts2 : String) : SessionState × String :=
  let st1 := add_message st ⟨"user", user_message, ts⟩
  match api with
  | Except.ok reply => (add_message st1 ⟨"assistant", reply, ts2⟩, reply)
  | Except.error e => (st1, "Error: " ++ e)

/-- State of a session's backing file on disk, as seen by `_load_history`:
absent, present but not valid JSON, or parsed JSON whose optional
`"messages"` field holds a message list. -/
inductive FileState where
  | missing
  | malformed
  | parsed (messages : Option (List Message))
  deriving DecidableEq

/-- The exceptions `_load_history` catches. -/
inductive ReadError where
  | fileNotFound
  | jsonDecodeError
  deriving DecidableEq

/-- The `open` + `json.load` step of `_load_history`: a missing file raises
`FileNotFoundError`, a malformed one raises `json.JSONDecodeError`, and a
parsed one yields the optional `"messages"` field. -/
def read_cache (f : FileState) : Except ReadError (Option (List Message)) :=
  match f with
  | FileState.missing => Except.error ReadError.fileNotFound
  | FileState.malformed => Except.error ReadError.jsonDecodeError
  | FileState.parsed ms => Except.ok ms

/-- `self.cache_file = f"chat_history_{session_id}.json"`. -/
def cache_file_name (session_id : String) : String :=
  "chat_history_" ++ session_id ++ ".json"

/-- Embeds `CachedChatHistory._load_history` (`src/Backend/main.py` lines
15–22): `try` to open and parse the session's file and return
`data.get("messages", [])`; `except (FileNotFoundError, json.JSONDecodeError):
return []`.  `fs` maps a file name to its on-disk state. -/
def load_history (fs : String → FileState) (session_id : String) : List Message :=
  match read_cache (fs (cache_file_name session_id)) with
  | Except.ok ms => ms.getD []
  | Except.error _ => []

/-- The fixed label list of `src/Backend/image_classification.py` lines 31–34. -/
def LABELS : List String :=
  ["Bele", "Chela", "Guchi", "Kachki", "Kata Phasa",
   "Mola", "Nama Chanda", "Pabda", "Puti", "Tengra"]

/-- `os.path.basename` (POSIX): the part of the path after the last `/`
(the whole path when it has no `/`). -/
def basename (path : String) : String :=
  String.mk (path.data.foldl (fun acc c => if c = '/' then [] else acc ++ [c]) [])

/-- `sum(ord(c) for c in s)`; Python's `ord` is the Unicode code point,
i.e. `Char.toNat`. -/
def sum_ord (s : String) : Nat :=
  (s.data.map Char.toNat).sum

/-- Python's `round` to an integer: round half to even.  Written with the
computable `Rat.floor` so that concrete instances evaluate by `decide`. -/
def round_half_even (q : ℚ) : ℤ :=
  if q - (q.floor : ℚ) < 1/2 then q.floor
  else if (1 : ℚ)/2 < q - (q.floor : ℚ) then q.floor + 1
  else if q.floor % 2 = 0 then q.floor else q.floor + 1

/-- Python's `round(x, 3)`, idealised to exact arithmetic on rationals. -/
def py_round3 (q : ℚ) : ℚ :=
  (round_half_even (q * 1000) : ℚ) / 1000

/-- Embeds `_deterministic_fallback` (`src/Backend/image_classification.py`
lines 64–71): hash the base name by summing character codes modulo
`len(LABELS)` to pick a label, and derive the confidence
`round(0.7 + random.random() * 0.3, 3)` from a draw seeded by the base name
(`random.seed(basename)`), here the parameter `seeded_random`. -/
def deterministic_fallback (seeded_random : String → ℚ) (image_path : String) :
    String × ℚ :=
  let b := basename image_path
  let h := sum_ord b % LABELS.length
  let label := LABELS.getD h ""
  let confidence := py_round3 (7/10 + seeded_random b * (3/10))
  (label, confidence)

/-- Ways `_predict_with_model` can raise: no model loaded
(`RuntimeError("No DL model available")`), the image file missing or
unreadable (I/O error raised by `image.load_img`), an unexpected prediction
shape (`RuntimeError`), or any other inference failure. -/
inductive PredictErr where
  | noModel
  | ioError
  | badShape
  | otherError
  deriving DecidableEq

/-- Embeds `classify_image` (`src/Backend/image_classification.py` lines
74–88).  `predict` is the outcome of `_predict_with_model(file_path)`;
the bare `except Exception` turns every error into the fallback path.
Returns `(label, confidence, method)`. -/
def classify_image (seeded_random : String → ℚ)
    (predict : Except PredictErr (String × ℚ)) (file_path : String) :
    String × ℚ × String :=
  match predict with
  | Except.ok (label, confidence) => (label, confidence, "dl")
  | Except.error _ =>
      let r := deterministic_fallback seeded_random file_path
      (r.1, r.2, "fallback")

/-- Embeds the history computation of the `/api/chat/history` handler
`get_history` (`src/main.py` lines 95–112):
`[msg for msg in session.conversation_history if msg['role'] != 'system']`. -/
def get_history (conversation_history : List Message) : List Message :=
  conversation_history.filter (fun msg => msg.role != "system")

/-- A response of the static-asset route: a file served out of a directory,
or the `("File not found", 404)` text response. -/
inductive HttpResponse where
  | file (directory : String) (name : String)
  | notFound404
  deriving DecidableEq

/-- Embeds `serve_html` (`src/main.py` lines 23–33): block
`fish-classification-website.html` unconditionally, otherwise serve the file
from `Frontend` when `os.path.exists(os.path.join('Frontend', filename))`
holds, else 404.  `file_exists` is the filesystem predicate. -/
def serve_html (file_exists : String → Bool) (filename : String) : HttpResponse :=
  if filename == "fish-classification-website.html" then HttpResponse.notFound404
  else if file_exists ("Frontend/" ++ filename) then HttpResponse.file "Frontend" filename
  else HttpResponse.notFound404

/-! ## Helper lemmas -/

/-- Batteries' computable `Rat.floor` agrees with the `⌊·⌋` of `FloorRing ℚ`. -/
theorem rat_floor_eq_floor (q : ℚ) : q.floor = ⌊q⌋ := by
  rw [Rat.floor_def', Rat.floor_def]

/-- Half-to-even rounding moves a rational to its floor or its ceiling. -/
theorem round_half_even_bounds (q : ℚ) :
    ⌊q⌋ ≤ round_half_even q ∧ round_half_even q ≤ ⌊q⌋ + 1 := by
  unfold round_half_even
  rw [rat_floor_eq_floor]
  split_ifs <;> omega

/-- One `add_to_history` step always leaves the last 20 elements of the
appended list (a no-op truncation when the list is short). -/
theorem add_to_history_eq_lastN (h : List Message) (m : Message) :
    add_to_history h m = lastN 20 (h ++ [m]) := by
  unfold add_to_history
  split_ifs with hlen
  · rfl
  · unfold lastN
    have h0 : (h ++ [m]).length - 20 = 0 := by omega
    rw [h0, List.drop_zero]

/-- Truncating to the last 20, appending, and truncating again is the same
as truncating the full concatenation. -/
theorem lastN_lastN_append (a b : List Message) :
    lastN 20 (lastN 20 a ++ b) = lastN 20 (a ++ b) := by
  unfold lastN
  rw [← List.drop_append_of_le_length (Nat.sub_le a.length 20), List.drop_drop]
  congr 1
  simp only [List.length_append, List.length_drop]
  omega

/-- Folding `add_to_history` over a non-empty batch of messages keeps exactly
the last 20 of the initial history followed by the batch. -/
theorem foldl_add_to_history (msgs : List Message) :
    ∀ init : List Message, msgs ≠ [] →
      msgs.foldl add_to_history init = lastN 20 (init ++ msgs) := by
  induction msgs with
  | nil => intro init h; exact absurd rfl h
  | cons m rest ih =>
    intro init _
    cases rest with
    | nil =>
      simp only [List.foldl_cons, List.foldl_nil]
      exact add_to_history_eq_lastN init m
    | cons r rs =>
      rw [List.foldl_cons, ih (add_to_history init m) (by simp),
        add_to_history_eq_lastN, lastN_lastN_append]
      congr 1
      simp

/-- When the batch itself has at least 20 messages, the initial history is
entirely evicted. -/
theorem lastN_append_of_le (init msgs : List Message) (h : 20 ≤ msgs.length) :
    lastN 20 (init ++ msgs) = lastN 20 msgs := by
  unfold lastN
  have h0 : (init ++ msgs).length - 20 = init.length + (msgs.length - 20) := by
    rw [List.length_append]; omega
  rw [h0, List.drop_append]

/-! ## Claims -/

/-- **C1**: for every starting history and every sequence of messages
appended via `add_to_history`, after every append the in-memory conversation
history has at most 20 entries; and after appending more than 20 messages in
total, the history is exactly the last 20 appended messages in their
original relative order (hence has exactly 20 entries). -/
theorem c1_history_cap (init msgs : List Message) :
    (∀ p q : List Message, msgs = p ++ q → p ≠ [] →
        (p.foldl add_to_history init).length ≤ 20) ∧
    (20 < msgs.length →
        msgs.foldl add_to_history init = lastN 20 msgs ∧
        (msgs.foldl add_to_history init).length = 20) := by
  constructor
  · intro p _ _ hp
    rw [foldl_add_to_history p init hp]
    unfold lastN
    rw [List.length_drop]
    omega
  · intro hlen
    have hne : msgs ≠ [] := by
      intro h
      rw [h] at hlen
      simp at hlen
    have hmain : msgs.foldl add_to_history init = lastN 20 msgs := by
      rw [foldl_add_to_history msgs init hne, lastN_append_of_le init msgs (by omega)]
    refine ⟨hmain, ?_⟩
    rw [hmain]
    unfold lastN
    rw [List.length_drop]
    omega

/-- Witness for **C1**: appending 21 identical messages to an empty history
leaves at most 20 entries, namely the last 20 of the 21. -/
theorem c1_history_cap_witness :
    ((List.replicate 21 (Message.mk "user" "hi" "t")).foldl add_to_history []).length ≤ 20 ∧
    (List.replicate 21 (Message.mk "user" "hi" "t")).foldl add_to_history []
      = lastN 20 (List.replicate 21 (Message.mk "user" "hi" "t")) :=
  ⟨(c1_history_cap [] (List.replicate 21 (Message.mk "user" "hi" "t"))).1
      (List.replicate 21 (Message.mk "user" "hi" "t")) [] (by simp) (by decide),
   ((c1_history_cap [] (List.replicate 21 (Message.mk "user" "hi" "t"))).2 (by decide)).1⟩

/-- **C6**: for every session id, loading a session whose backing file is
missing or malformed yields an empty starting message history; `load_history`
is a total function (the two exceptions `open`/`json.load` can raise there
are caught), so no exception escapes. -/
theorem c6_load_history_safe (fs : String → FileState) (session_id : String)
    (h : fs (cache_file_name session_id) = FileState.missing ∨
         fs (cache_file_name session_id) = FileState.malformed) :
    load_history fs session_id = [] := by
  unfold load_history read_cache
  rcases h with h | h <;> rw [h]

/-- Witness for **C6**: a filesystem with only missing files, and one with
only malformed files, both load the `"default"` session as empty. -/
theorem c6_load_history_safe_witness :
    load_history (fun _ => FileState.missing) "default" = [] ∧
    load_history (fun _ => FileState.malformed) "default" = [] :=
  ⟨c6_load_history_safe (fun _ => FileState.missing) "default" (Or.inl rfl),
   c6_load_history_safe (fun _ => FileState.malformed) "default" (Or.inr rfl)⟩

/-- **C8**: the history-fetch endpoint returns exactly the session's message
sequence with every `"system"`-role message removed: the result is a sublist
of the history (relative order preserved), contains no `"system"`-role
message, keeps every occurrence of each non-`"system"` message, and drops
every occurrence of each `"system"` message. -/
theorem c8_get_history_filters_system (h : List Message) :
    (get_history h).Sublist h ∧
    (∀ m ∈ get_history h, m.role ≠ "system") ∧
    (∀ m : Message, m.role ≠ "system" → (get_history h).count m = h.count m) ∧
    (∀ m : Message, m.role = "system" → (get_history h).count m = 0) := by
  refine ⟨List.filter_sublist h, ?_, ?_, ?_⟩
  · intro m hm
    unfold get_history at hm
    have h1 := (List.mem_filter.mp hm).2
    simp only [bne_iff_ne] at h1
    exact h1
  · intro m hm
    unfold get_history
    exact List.count_filter (bne_iff_ne.mpr hm)
  · intro m hm
    rw [List.count_eq_zero]
    intro hmem
    unfold get_history at hmem
    have h1 := (List.mem_filter.mp hmem).2
    simp only [bne_iff_ne] at h1
    exact h1 hm

/-- Witness for **C8**: on a three-message history, the fetch keeps the user
and assistant messages (in order) and drops the system message. -/
theorem c8_get_history_filters_system_witness :
    (get_history [⟨"system", "s", "t1"⟩, ⟨"user", "u", "t2"⟩, ⟨"assistant", "a", "t3"⟩]).Sublist
      [⟨"system", "s", "t1"⟩, ⟨"user", "u", "t2"⟩, ⟨"assistant", "a", "t3"⟩] ∧
    (get_history [⟨"system", "s", "t1"⟩, ⟨"user", "u", "t2"⟩, ⟨"assistant", "a", "t3"⟩]).count
        ⟨"user", "u", "t2"⟩
      = ([⟨"system", "s", "t1"⟩, ⟨"user", "u", "t2"⟩, ⟨"assistant", "a", "t3"⟩] : List Message).count
        ⟨"user", "u", "t2"⟩ ∧
    (get_history [⟨"system", "s", "t1"⟩, ⟨"user", "u", "t2"⟩, ⟨"assistant", "a", "t3"⟩]).count
        ⟨"system", "s", "t1"⟩ = 0 :=
  ⟨(c8_get_history_filters_system
      [⟨"system", "s", "t1"⟩, ⟨"user", "u", "t2"⟩, ⟨"assistant", "a", "t3"⟩]).1,
   (c8_get_history_filters_system
      [⟨"system", "s", "t1"⟩, ⟨"user", "u", "t2"⟩, ⟨"assistant", "a", "t3"⟩]).2.2.1
      ⟨"user", "u", "t2"⟩ (by decide),
   (c8_get_history_filters_system
      [⟨"system", "s", "t1"⟩, ⟨"user", "u", "t2"⟩, ⟨"assistant", "a", "t3"⟩]).2.2.2
      ⟨"system", "s", "t1"⟩ (by decide)⟩

/-- **C9**: a request for `fish-classification-website.html` always gets the
404 response, whatever the filesystem contains; any other filename is served
when `Frontend/<filename>` exists and gets 404 when it does not. -/
theorem c9_serve_html_blocked (file_exists : String → Bool) (filename : String) :
    serve_html file_exists "fish-classification-website.html" = HttpResponse.notFound404 ∧
    (filename ≠ "fish-classification-website.html" →
      (file_exists ("Frontend/" ++ filename) = true →
        serve_html file_exists filename = HttpResponse.file "Frontend" filename) ∧
      (file_exists ("Frontend/" ++ filename) = false →
        serve_html file_exists filename = HttpResponse.notFound404)) := by
  constructor
  · rfl
  · intro hne
    have hb : ¬ ((filename == "fish-classification-website.html") = true) := by
      simp only [beq_iff_eq]
      exact hne
    constructor <;> intro hex <;> unfold serve_html
    · rw [if_neg hb, if_pos hex]
    · rw [if_neg hb, if_neg (by simp [hex])]

/-- Witness for **C9**: the blocked page 404s even on a filesystem where
every file exists; `index.html` is served when present and 404s when not. -/
theorem c9_serve_html_blocked_witness :
    serve_html (fun _ => true) "fish-classification-website.html" = HttpResponse.notFound404 ∧
    serve_html (fun _ => true) "index.html" = HttpResponse.file "Frontend" "index.html" ∧
    serve_html (fun _ => false) "index.html" = HttpResponse.notFound404 :=
  ⟨(c9_serve_html_blocked (fun _ => true) "index.html").1,
   ((c9_serve_html_blocked (fun _ => true) "index.html").2 (by decide)).1 rfl,
   ((c9_serve_html_blocked (fun _ => false) "index.html").2 (by decide)).2 rfl⟩

/-- **C2**: the fallback classifier is deterministic and depends only on the
file's base name: any two paths with the same base name get the same label
and confidence from `deterministic_fallback`, and the same full result from
`classify_image` when no model is available, with method `"fallback"`.
(The seeded draw is a fixed function of the seed string, which is exactly
the determinism of `random.seed`/`random.random`; repeating a call verbatim
is the special case `p1 = p2`.) -/
theorem c2_fallback_deterministic (seeded_random : String → ℚ) (p1 p2 : String)
    (h : basename p1 = basename p2) :
    deterministic_fallback seeded_random p1 = deterministic_fallback seeded_random p2 ∧
    classify_image seeded_random (Except.error PredictErr.noModel) p1
      = classify_image seeded_random (Except.error PredictErr.noModel) p2 ∧
    (classify_image seeded_random (Except.error PredictErr.noModel) p1).2.2
      = "fallback" := by
  have hfb : deterministic_fallback seeded_random p1
      = deterministic_fallback seeded_random p2 := by
    unfold deterministic_fallback
    rw [h]
  refine ⟨hfb, ?_, rfl⟩
  show ((deterministic_fallback seeded_random p1).1,
        (deterministic_fallback seeded_random p1).2, "fallback")
      = ((deterministic_fallback seeded_random p2).1,
        (deterministic_fallback seeded_random p2).2, "fallback")
  rw [hfb]

/-- Witness for **C2**: `"dir/fishA.jpg"` and `"fishA.jpg"` share the base
name `"fishA.jpg"`, so they classify identically, with method `"fallback"`.
The draw `7143646550211435/9007199254740992` is CPython's
`random.seed("fishA.jpg"); random.random()`. -/
theorem c2_fallback_deterministic_witness :
    deterministic_fallback (fun _ => (7143646550211435 : ℚ)/9007199254740992) "dir/fishA.jpg"
      = deterministic_fallback (fun _ => (7143646550211435 : ℚ)/9007199254740992) "fishA.jpg" ∧
    (classify_image (fun _ => (7143646550211435 : ℚ)/9007199254740992)
        (Except.error PredictErr.noModel) "dir/fishA.jpg").2.2 = "fallback" :=
  ⟨(c2_fallback_deterministic (fun _ => (7143646550211435 : ℚ)/9007199254740992)
      "dir/fishA.jpg" "fishA.jpg" (by decide)).1,
   (c2_fallback_deterministic (fun _ => (7143646550211435 : ℚ)/9007199254740992)
      "dir/fishA.jpg" "fishA.jpg" (by decide)).2.2⟩

/-- **C4**: the fallback label is the entry of the fixed 10-element label
list at index (sum of character codes of the base name) mod 10, and is
therefore always a member of that list. -/
theorem c4_fallback_label (seeded_random : String → ℚ) (path : String) :
    (deterministic_fallback seeded_random path).1
      = LABELS.getD (sum_ord (basename path) % 10) "" ∧
    (deterministic_fallback seeded_random path).1 ∈ LABELS := by
  have h1 : (deterministic_fallback seeded_random path).1
      = LABELS.getD (sum_ord (basename path) % 10) "" := rfl
  refine ⟨h1, ?_⟩
  rw [h1]
  have hlt : sum_ord (basename path) % 10 < LABELS.length := by
    have hL : LABELS.length = 10 := rfl
    rw [hL]
    exact Nat.mod_lt _ (by norm_num)
  rw [List.getD_eq_getElem LABELS "" hlt]
  exact List.getElem_mem hlt

/-- Bounds for the fallback confidence formula: for a draw `r ∈ [0, 1)`,
`round(0.7 + r·0.3, 3)` lies in `[0.7, 1]` — the upper end included, because
rounding to 3 decimals can carry values of `0.7 + 0.3·r ≥ 0.9995` up to 1. -/
theorem py_round3_confidence_range (r : ℚ) (h0 : 0 ≤ r) (h1 : r < 1) :
    7/10 ≤ py_round3 (7/10 + r * (3/10)) ∧ py_round3 (7/10 + r * (3/10)) ≤ 1 := by
  have hq1 : (700 : ℚ) ≤ (7/10 + r * (3/10)) * 1000 := by nlinarith
  have hq2 : (7/10 + r * (3/10)) * 1000 < 1000 := by nlinarith
  have hfl : (700 : ℤ) ≤ ⌊(7/10 + r * (3/10)) * 1000⌋ :=
    Int.le_floor.mpr (by exact_mod_cast hq1)
  have hfu : ⌊(7/10 + r * (3/10)) * 1000⌋ < 1000 :=
    Int.floor_lt.mpr (by exact_mod_cast hq2)
  have hb := round_half_even_bounds ((7/10 + r * (3/10)) * 1000)
  have hrb1 : (700 : ℤ) ≤ round_half_even ((7/10 + r * (3/10)) * 1000) := by omega
  have hrb2 : round_half_even ((7/10 + r * (3/10)) * 1000) ≤ 1000 := by omega
  unfold py_round3
  constructor
  · rw [le_div_iff₀ (by norm_num : (0:ℚ) < 1000)]
    have hc : ((700 : ℤ) : ℚ) ≤ (round_half_even ((7/10 + r * (3/10)) * 1000) : ℚ) := by
      exact_mod_cast hrb1
    push_cast at hc
    linarith
  · rw [div_le_one (by norm_num : (0:ℚ) < 1000)]
    have hc : (round_half_even ((7/10 + r * (3/10)) * 1000) : ℚ) ≤ ((1000 : ℤ) : ℚ) := by
      exact_mod_cast hrb2
    push_cast at hc
    linarith

/-- **C3** (amended): for every path, when the seeded draw for the base name
lies in `[0, 1)` (the range of `random.random()`), the fallback confidence
lies in the closed interval `[0.7, 1.0]`; the original claim's strict bound
`< 1.0` fails because `round(·, 3)` can round values `≥ 0.9995` up to `1.0`
(see the counterexample). -/
theorem c3_confidence_range (seeded_random : String → ℚ) (path : String)
    (h0 : 0 ≤ seeded_random (basename path))
    (h1 : seeded_random (basename path) < 1) :
    7/10 ≤ (deterministic_fallback seeded_random path).2 ∧
    (deterministic_fallback seeded_random path).2 ≤ 1 := by
  have hc : (deterministic_fallback seeded_random path).2
      = py_round3 (7/10 + seeded_random (basename path) * (3/10)) := rfl
  rw [hc]
  exact py_round3_confidence_range (seeded_random (basename path)) h0 h1

/-- Witness for **C3** (amended): the confidence for `"fishA.jpg"` under its
actual CPython draw lies in `[0.7, 1]` (it is 0.938). -/
theorem c3_confidence_range_witness :
    7/10 ≤ (deterministic_fallback
        (fun _ => (7143646550211435 : ℚ)/9007199254740992) "fishA.jpg").2 ∧
    (deterministic_fallback
        (fun _ => (7143646550211435 : ℚ)/9007199254740992) "fishA.jpg").2 ≤ 1 :=
  c3_confidence_range (fun _ => (7143646550211435 : ℚ)/9007199254740992) "fishA.jpg"
    (by norm_num) (by norm_num)

/-- Counterexample to **C3** as stated: seeding CPython's PRNG with the base
name `"fish690.jpg"` makes `random.random()` return exactly
`4500261538174371/4503599627370496 ≈ 0.99926`, and
`round(0.7 + 0.3·r, 3)` carries `0.99978` up to `1.0`: the fallback
confidence equals `1.0`, so it is not strictly below `1.0`. -/
theorem c3_confidence_counterexample :
    (deterministic_fallback
        (fun _ => (4500261538174371 : ℚ)/4503599627370496) "fish690.jpg").2 = 1 ∧
    ¬ ((deterministic_fallback
        (fun _ => (4500261538174371 : ℚ)/4503599627370496) "fish690.jpg").2 < 1) := by
  have h : (deterministic_fallback
      (fun _ => (4500261538174371 : ℚ)/4503599627370496) "fish690.jpg").2 = 1 := by
    simp only [deterministic_fallback, py_round3, round_half_even]
    norm_num [basename, sum_ord, Rat.floor_def']
  refine ⟨h, ?_⟩
  rw [h]
  exact lt_irrefl 1

/-- **C5** (amended): `classify_image` is total (the bare `except Exception`
lets no error escape), every failing prediction — including an I/O failure
to read the image — yields the deterministic fallback result with method
`"fallback"`, and a successful prediction is returned with method `"dl"`. -/
theorem c5_classify_absorbs_errors (seeded_random : String → ℚ)
    (predict : Except PredictErr (String × ℚ)) (file_path : String) :
    (∀ e : PredictErr, predict = Except.error e →
      classify_image seeded_random predict file_path
        = ((deterministic_fallback seeded_random file_path).1,
            (deterministic_fallback seeded_random file_path).2, "fallback")) ∧
    (∀ lc : String × ℚ, predict = Except.ok lc →
      classify_image seeded_random predict file_path = (lc.1, lc.2, "dl")) := by
  constructor
  · intro e he
    rw [he]
    rfl
  · intro lc hl
    rw [hl]
    rfl

/-- Witness for **C5** (amended): an I/O failure on `"missing2.jpg"` is
absorbed into the fallback result. -/
theorem c5_classify_absorbs_errors_witness :
    classify_image (fun _ => 0) (Except.error PredictErr.ioError) "missing2.jpg"
      = ((deterministic_fallback (fun _ => 0) "missing2.jpg").1,
          (deterministic_fallback (fun _ => 0) "missing2.jpg").2, "fallback") :=
  (c5_classify_absorbs_errors (fun _ => 0)
      (Except.error PredictErr.ioError) "missing2.jpg").1 PredictErr.ioError rfl

/-- Counterexample to **C5** as stated: when reading the image file itself
fails (`PredictErr.ioError`, e.g. file not found in `image.load_img`), the
bare `except Exception` in `classify_image` converts it into a fallback
result — the method is `"fallback"` — instead of surfacing a distinct I/O
error to the caller. -/
theorem c5_io_error_counterexample :
    (classify_image (fun _ => 0) (Except.error PredictErr.ioError) "missing.jpg").2.2
      = "fallback" := rfl

/-- **C7**: when the remote completion call fails, `get_response` returns the
error-describing string `"Error: " ++ e` (it does not raise — the embedding
is total), and at that point the user's message has already been appended to
the in-memory history and persisted: the backing file equals the history
after appending the user message, whose last entry is that message. -/
theorem c7_failed_call_persists_user (st : SessionState)
    (user_message e ts ts2 : String) :
    (get_response (Except.error e) st user_message ts ts2).2 = "Error: " ++ e ∧
    (get_response (Except.error e) st user_message ts ts2).1.conversation_history
      = add_to_history st.conversation_history ⟨"user", user_message, ts⟩ ∧
    (get_response (Except.error e) st user_message ts ts2).1.cache_file
      = add_to_history st.conversation_history ⟨"user", user_message, ts⟩ ∧
    ((get_response (Except.error e) st user_message ts ts2).1.cache_file).getLast?
      = some ⟨"user", user_message, ts⟩ := by
  refine ⟨rfl, rfl, rfl, ?_⟩
  show (add_to_history st.conversation_history ⟨"user", user_message, ts⟩).getLast? = _
  rw [add_to_history_eq_lastN]
  unfold lastN
  rw [List.drop_append_of_le_length
    (by simp only [List.length_append, List.length_cons, List.length_nil]; omega)]
  exact List.getLast?_concat _

/-- **C10**: when the remote completion call raises with text `e`,
`get_response` returns exactly `"Error: " ++ e`, appends no assistant
message — the final history and backing file both equal the history after
appending only the user message — and (provided the error text does not
coincide with a message already present there) the returned error string
appears nowhere in the history or the backing file. -/
theorem c10_error_reply_not_recorded (st : SessionState)
    (user_message e ts ts2 : String)
    (h : ∀ m ∈ add_to_history st.conversation_history ⟨"user", user_message, ts⟩,
        m.content ≠ "Error: " ++ e) :
    (get_response (Except.error e) st user_message ts ts2).2 = "Error: " ++ e ∧
    (get_response (Except.error e) st user_message ts ts2).1.conversation_history
      = add_to_history st.conversation_history ⟨"user", user_message, ts⟩ ∧
    (get_response (Except.error e) st user_message ts ts2).1.cache_file
      = add_to_history st.conversation_history ⟨"user", user_message, ts⟩ ∧
    (∀ m ∈ (get_response (Except.error e) st user_message ts ts2).1.conversation_history,
        m.content ≠ (get_response (Except.error e) st user_message ts ts2).2) ∧
    (∀ m ∈ (get_response (Except.error e) st user_message ts ts2).1.cache_file,
        m.content ≠ (get_response (Except.error e) st user_message ts ts2).2) := by
  exact ⟨rfl, rfl, rfl, h, h⟩

/-- Witness for **C10**: on an empty session with user message `"hi"` and a
remote failure `"boom"`, the reply is `"Error: boom"`, the history is just
the appended user message, and the error string is recorded nowhere. -/
theorem c10_error_reply_not_recorded_witness :
    (get_response (Except.error "boom") ⟨[], []⟩ "hi" "t1" "t2").2 = "Error: " ++ "boom" ∧
    (get_response (Except.error "boom") ⟨[], []⟩ "hi" "t1" "t2").1.conversation_history
      = add_to_history [] ⟨"user", "hi", "t1"⟩ ∧
    (∀ m ∈ (get_response (Except.error "boom") ⟨[], []⟩ "hi" "t1" "t2").1.cache_file,
        m.content ≠ (get_response (Except.error "boom") ⟨[], []⟩ "hi" "t1" "t2").2) :=
  ⟨(c10_error_reply_not_recorded ⟨[], []⟩ "hi" "boom" "t1" "t2" (by decide)).1,
   (c10_error_reply_not_recorded ⟨[], []⟩ "hi" "boom" "t1" "t2" (by decide)).2.1,
   (c10_error_reply_not_recorded ⟨[], []⟩ "hi" "boom" "t1" "t2" (by decide)).2.2.2.2⟩

end FishSite
